import Mathlib

/-!
Shallow embedding of the spike-event layer of libcaer
(`src/include/events/spike.h`), together with proofs of the
specification's claims about it.

Machine integers are modelled as `Nat` (for the C `uint32_t` bit-field
word, with explicit `% 2 ^ 32` where C arithmetic wraps) and as `Int`
(for the C signed counters and timestamps; C signed overflow is
undefined behaviour, and under the packet invariants every counter
stays far inside the `int32_t` range).  A C pointer to a record inside
a packet is modelled as the record's index in the packet's event list.
Calls to the logging sink `caerLogEHO` at `CAER_LOG_CRITICAL` level are
modelled as a `Bool` flag returned next to the new state (`true` means
the critical condition was reported).
-/

/-! Bit layout constants, verbatim from `spike.h`. -/

def SPIKE_SOURCE_CORE_ID_SHIFT : Nat := 1

def SPIKE_SOURCE_CORE_ID_MASK : Nat := 0x0000001F

def SPIKE_CHIP_ID_SHIFT : Nat := 6

def SPIKE_CHIP_ID_MASK : Nat := 0x0000003F

def SPIKE_NEURON_ID_SHIFT : Nat := 12

def SPIKE_NEURON_ID_MASK : Nat := 0x000FFFFF

/-- Modelled from the spec: `common.h` is not part of the sources; §3 of
the spec fixes bit 0 of the field word as the validity mark. -/
def VALID_MARK_SHIFT : Nat := 0

/-- Modelled from the spec: the validity mark is a single bit (§3). -/
def VALID_MARK_MASK : Nat := 0x00000001

/-- Modelled from the spec: `OVERFLOW_SHIFT` equals the usable bit width
of the 32-bit timestamp field, 31, since bit 31 is reserved (§4.3);
`common.h`, which defines `TS_OVERFLOW_SHIFT`, is not part of the
sources. -/
def TS_OVERFLOW_SHIFT : Nat := 31

/-- Modelled from the spec: the reserved spike-event type tag checked by
packet-header conversion (§6).  The spec does not fix its numeric
value and no claim depends on it; any fixed value serves. -/
def SPIKE_EVENT : Int := 11

/-- Modelled from the spec: the bit-field extraction macro
`GET_NUMBITS32(data, shift, mask)` of `common.h`: shift the word right
and mask out the field (§3 bit-packed layout). -/
def GET_NUMBITS32 (data shift mask : Nat) : Nat :=
  (data >>> shift) &&& mask

/-- Modelled from the spec: the bit-field clearing macro
`CLEAR_NUMBITS32(data, shift, mask)` of `common.h`: clear the target
bit range (spec §4.1, each setter clears the target bit range before
writing).  The complement is taken inside the 32-bit word. -/
def CLEAR_NUMBITS32 (data shift mask : Nat) : Nat :=
  data &&& (((mask <<< shift) % 2 ^ 32) ^^^ (2 ^ 32 - 1))

/-- Modelled from the spec: the bit-field writing macro
`SET_NUMBITS32(data, shift, mask, value)` of `common.h`: mask the value
to the field width (out-of-range values are truncated by the mask, spec
§4.1) and OR it into place. -/
def SET_NUMBITS32 (data shift mask value : Nat) : Nat :=
  data ||| (((value &&& mask) <<< shift) % 2 ^ 32)

/-- Spike event record (`struct caer_spike_event`): a 32-bit bit-packed
field word and a 32-bit signed timestamp. -/
structure caer_spike_event where
  data : Nat
  timestamp : Int
deriving DecidableEq

/-- Modelled from the spec: the external event packet header
(`struct caer_event_packet_header`, `common.h` not in the sources).
Per §3 it holds the event-type tag, source id, fixed capacity, current
event count, current valid-event count and the timestamp-overflow
counter. -/
structure caer_event_packet_header where
  eventType : Int
  eventSource : Int
  eventCapacity : Int
  eventNumber : Int
  eventValid : Int
  eventTSOverflow : Int
deriving DecidableEq

/-- Spike event packet (`struct caer_spike_event_packet`): the common
header followed by the contiguous events array. -/
structure caer_spike_event_packet where
  packetHeader : caer_event_packet_header
  events : List caer_spike_event
deriving DecidableEq

/-! Header accessors.  Modelled from the spec: they are declared in
`common.h`, which is not in the sources; per §3 they read and write the
corresponding header fields. -/

/-- Modelled from the spec: read the fixed capacity from the header. -/
def caerEventPacketHeaderGetEventCapacity (h : caer_event_packet_header) : Int :=
  h.eventCapacity

/-- Modelled from the spec: read the current event count from the header. -/
def caerEventPacketHeaderGetEventNumber (h : caer_event_packet_header) : Int :=
  h.eventNumber

/-- Modelled from the spec: write the current event count into the header. -/
def caerEventPacketHeaderSetEventNumber (h : caer_event_packet_header) (n : Int) :
    caer_event_packet_header :=
  { h with eventNumber := n }

/-- Modelled from the spec: read the current valid-event count from the header. -/
def caerEventPacketHeaderGetEventValid (h : caer_event_packet_header) : Int :=
  h.eventValid

/-- Modelled from the spec: write the current valid-event count into the header. -/
def caerEventPacketHeaderSetEventValid (h : caer_event_packet_header) (n : Int) :
    caer_event_packet_header :=
  { h with eventValid := n }

/-- Modelled from the spec: read the timestamp-overflow counter from the header. -/
def caerEventPacketHeaderGetEventTSOverflow (h : caer_event_packet_header) : Int :=
  h.eventTSOverflow

/-- Modelled from the spec: read the event-type tag from the header. -/
def caerEventPacketHeaderGetEventType (h : caer_event_packet_header) : Int :=
  h.eventType

/-- C cast `U64T` of a signed value to `uint64_t`: two's-complement
reduction modulo `2 ^ 64`. -/
def U64T (x : Int) : Nat :=
  (x % (2 ^ 64 : Int)).toNat

/-- C cast `I64T` of a `uint64_t` bit pattern to `int64_t`:
two's-complement reinterpretation. -/
def I64T (x : Nat) : Int :=
  if x % 2 ^ 64 < 2 ^ 63 then ((x % 2 ^ 64 : Nat) : Int)
  else ((x % 2 ^ 64 : Nat) : Int) - 2 ^ 64

/-- Interpretation of a raw 32-bit little-endian wire pattern as the C
`int32_t` it denotes (two's complement). -/
def I32T (x : Nat) : Int :=
  if x % 2 ^ 32 < 2 ^ 31 then ((x % 2 ^ 32 : Nat) : Int)
  else ((x % 2 ^ 32 : Nat) : Int) - 2 ^ 32

/-! Functions of `spike.h`, translated one to one.  Byte-order helpers
`le32toh`/`htole32` are value-level identities in this model (they
permute bytes of the in-memory representation only). -/

/-- Function `caerSpikeEventPacketAllocate`.  Modelled from the spec:
the underlying `caerEventPacketAllocate` lives outside the sources;
per §3 a packet is created with the given fixed capacity, all records
zeroed (invalid, timestamp 0), and counters at zero. -/
def caerSpikeEventPacketAllocate (eventCapacity : Int) (eventSource : Int)
    (tsOverflow : Int) : caer_spike_event_packet :=
  { packetHeader :=
      { eventType := SPIKE_EVENT
        eventSource := eventSource
        eventCapacity := eventCapacity
        eventNumber := 0
        eventValid := 0
        eventTSOverflow := tsOverflow }
    events := List.replicate eventCapacity.toNat { data := 0, timestamp := 0 } }

/-- Function `caerSpikeEventPacketGetEvent`: bounds-check the index
against the header capacity; out of bounds reports critical and
returns NULL (`none`), otherwise the pointer `packet->events + n`
(the record at index `n`). -/
def caerSpikeEventPacketGetEvent (packet : caer_spike_event_packet) (n : Int) :
    Option caer_spike_event × Bool :=
  if n < 0 ∨ caerEventPacketHeaderGetEventCapacity packet.packetHeader ≤ n then
    (none, true)
  else
    (packet.events[n.toNat]?, false)

/-- Function `caerSpikeEventGetTimestamp`: read the 32-bit timestamp. -/
def caerSpikeEventGetTimestamp (event : caer_spike_event) : Int :=
  event.timestamp

/-- Function `caerSpikeEventGetTimestamp64`: widen the overflow counter
and the 32-bit timestamp to unsigned 64-bit, shift the former by
`TS_OVERFLOW_SHIFT`, OR them together and reinterpret as `int64_t`. -/
def caerSpikeEventGetTimestamp64 (event : caer_spike_event)
    (packet : caer_spike_event_packet) : Int :=
  I64T
    (((U64T (caerEventPacketHeaderGetEventTSOverflow packet.packetHeader)
        <<< TS_OVERFLOW_SHIFT) % 2 ^ 64)
      ||| U64T (caerSpikeEventGetTimestamp event))

/-- Function `caerSpikeEventSetTimestamp`: a negative timestamp is
rejected (critical report, record unchanged); otherwise it is stored. -/
def caerSpikeEventSetTimestamp (event : caer_spike_event) (timestamp : Int) :
    caer_spike_event × Bool :=
  if timestamp < 0 then
    (event, true)
  else
    ({ event with timestamp := timestamp }, false)

/-- Function `caerSpikeEventIsValid`: read the validity mark (bit 0). -/
def caerSpikeEventIsValid (event : caer_spike_event) : Bool :=
  GET_NUMBITS32 event.data VALID_MARK_SHIFT VALID_MARK_MASK != 0

/-- Function `caerSpikeEventValidate`: on an invalid record, set the
validity mark and increment both the event count and the valid count;
on an already-valid record, report critical and change nothing.  The C
event pointer is the index `i` into the packet's events array. -/
def caerSpikeEventValidate (packet : caer_spike_event_packet) (i : Nat) :
    caer_spike_event_packet × Bool :=
  match packet.events[i]? with
  | none => (packet, false)
  | some ev =>
    if ¬ caerSpikeEventIsValid ev then
      ({ packetHeader :=
          caerEventPacketHeaderSetEventValid
            (caerEventPacketHeaderSetEventNumber packet.packetHeader
              (caerEventPacketHeaderGetEventNumber packet.packetHeader + 1))
            (caerEventPacketHeaderGetEventValid packet.packetHeader + 1)
         events :=
          packet.events.set i
            { ev with data := SET_NUMBITS32 ev.data VALID_MARK_SHIFT VALID_MARK_MASK 1 } },
        false)
    else
      (packet, true)

/-- Function `caerSpikeEventInvalidate`: on a valid record, clear the
validity mark and decrement the valid count only (the event count is
unaffected); on an already-invalid record, report critical and change
nothing. -/
def caerSpikeEventInvalidate (packet : caer_spike_event_packet) (i : Nat) :
    caer_spike_event_packet × Bool :=
  match packet.events[i]? with
  | none => (packet, false)
  | some ev =>
    if caerSpikeEventIsValid ev then
      ({ packetHeader :=
          caerEventPacketHeaderSetEventValid packet.packetHeader
            (caerEventPacketHeaderGetEventValid packet.packetHeader - 1)
         events :=
          packet.events.set i
            { ev with data := CLEAR_NUMBITS32 ev.data VALID_MARK_SHIFT VALID_MARK_MASK } },
        false)
    else
      (packet, true)

/-- Function `caerSpikeEventGetSourceCoreID` (the `U8T` narrowing cast
is the identity, the masked field is below 256). -/
def caerSpikeEventGetSourceCoreID (event : caer_spike_event) : Nat :=
  GET_NUMBITS32 event.data SPIKE_SOURCE_CORE_ID_SHIFT SPIKE_SOURCE_CORE_ID_MASK

/-- Function `caerSpikeEventSetSourceCoreID`: clear the core-id bit
range, then write the new value. -/
def caerSpikeEventSetSourceCoreID (event : caer_spike_event) (sourceCoreID : Nat) :
    caer_spike_event :=
  { event with
    data := SET_NUMBITS32
      (CLEAR_NUMBITS32 event.data SPIKE_SOURCE_CORE_ID_SHIFT SPIKE_SOURCE_CORE_ID_MASK)
      SPIKE_SOURCE_CORE_ID_SHIFT SPIKE_SOURCE_CORE_ID_MASK sourceCoreID }

/-- Function `caerSpikeEventGetChipID`. -/
def caerSpikeEventGetChipID (event : caer_spike_event) : Nat :=
  GET_NUMBITS32 event.data SPIKE_CHIP_ID_SHIFT SPIKE_CHIP_ID_MASK

/-- Function `caerSpikeEventSetChipID`: clear the chip-id bit range,
then write the new value. -/
def caerSpikeEventSetChipID (event : caer_spike_event) (chipID : Nat) :
    caer_spike_event :=
  { event with
    data := SET_NUMBITS32
      (CLEAR_NUMBITS32 event.data SPIKE_CHIP_ID_SHIFT SPIKE_CHIP_ID_MASK)
      SPIKE_CHIP_ID_SHIFT SPIKE_CHIP_ID_MASK chipID }

/-- Function `caerSpikeEventGetNeuronID`. -/
def caerSpikeEventGetNeuronID (event : caer_spike_event) : Nat :=
  GET_NUMBITS32 event.data SPIKE_NEURON_ID_SHIFT SPIKE_NEURON_ID_MASK

/-- Function `caerSpikeEventSetNeuronID`: clear the neuron-id bit
range, then write the new value. -/
def caerSpikeEventSetNeuronID (event : caer_spike_event) (neuronID : Nat) :
    caer_spike_event :=
  { event with
    data := SET_NUMBITS32
      (CLEAR_NUMBITS32 event.data SPIKE_NEURON_ID_SHIFT SPIKE_NEURON_ID_MASK)
      SPIKE_NEURON_ID_SHIFT SPIKE_NEURON_ID_MASK neuronID }

/-- Record filled from foreign wire data.  Modelled from the spec: §6
fixes the wire layout of a record as a 4-byte field word followed by a
4-byte signed little-endian timestamp; filling a record from the wire
stores the raw patterns without any validation. -/
def caerSpikeEventOfWire (dataPattern tsPattern : Nat) : caer_spike_event :=
  { data := dataPattern % 2 ^ 32, timestamp := I32T tsPattern }

/-- Iteration macro `CAER_SPIKE_ITERATOR_VALID_START` /
`CAER_SPIKE_ITERATOR_VALID_END`: the loop counter runs from 0 up to
the event count (exclusive), the element is fetched with
`caerSpikeEventPacketGetEvent`, and invalid elements are skipped; the
result is the list of indices the loop body sees, in order. -/
def CAER_SPIKE_ITERATOR_VALID_visited (packet : caer_spike_event_packet) : List Nat :=
  (List.range (caerEventPacketHeaderGetEventNumber packet.packetHeader).toNat).filter
    fun i => ((caerSpikeEventPacketGetEvent packet (i : Int)).1.any caerSpikeEventIsValid)

/-- Iteration macro `CAER_SPIKE_REVERSE_ITERATOR_VALID_START` /
`CAER_SPIKE_REVERSE_ITERATOR_VALID_END`: the loop counter runs from
the event count minus one down to 0, and invalid elements are
skipped. -/
def CAER_SPIKE_REVERSE_ITERATOR_VALID_visited (packet : caer_spike_event_packet) :
    List Nat :=
  ((List.range (caerEventPacketHeaderGetEventNumber packet.packetHeader).toNat).reverse).filter
    fun i => ((caerSpikeEventPacketGetEvent packet (i : Int)).1.any caerSpikeEventIsValid)

/-! Operation sequences over one packet, for the bookkeeping claims. -/

/-- One bookkeeping operation on a packet: `Validate` or `Invalidate`
of the record at a given index. -/
inductive SpikeOp where
  | validate (i : Nat)
  | invalidate (i : Nat)
deriving DecidableEq

/-- State reached after one bookkeeping operation (the critical-report
flag is dropped). -/
def applySpikeOp (packet : caer_spike_event_packet) (op : SpikeOp) :
    caer_spike_event_packet :=
  match op with
  | .validate i => (caerSpikeEventValidate packet i).1
  | .invalidate i => (caerSpikeEventInvalidate packet i).1

/-- State reached after a sequence of bookkeeping operations. -/
def runSpikeOps (packet : caer_spike_event_packet) (ops : List SpikeOp) :
    caer_spike_event_packet :=
  ops.foldl applySpikeOp packet

/-- All states a sequence of bookkeeping operations passes through,
the initial and final states included. -/
def spikeTrace (packet : caer_spike_event_packet) : List SpikeOp →
    List caer_spike_event_packet
  | [] => [packet]
  | op :: ops => packet :: spikeTrace (applySpikeOp packet op) ops

/-- Sum of the per-record validity bits among the first `n` records. -/
def validBitSum (evs : List caer_spike_event) (n : Nat) : Nat :=
  (evs.take n).countP caerSpikeEventIsValid

/-- Packet bookkeeping invariant of spec §3:
`0 ≤ validCount ≤ eventCount ≤ capacity`, and the valid count equals
the sum of the per-record validity bits among the first `eventCount`
records. -/
def PacketInv (p : caer_spike_event_packet) : Prop :=
  0 ≤ caerEventPacketHeaderGetEventValid p.packetHeader ∧
  caerEventPacketHeaderGetEventValid p.packetHeader ≤
    caerEventPacketHeaderGetEventNumber p.packetHeader ∧
  caerEventPacketHeaderGetEventNumber p.packetHeader ≤
    caerEventPacketHeaderGetEventCapacity p.packetHeader ∧
  caerEventPacketHeaderGetEventValid p.packetHeader =
    (validBitSum p.events
      (caerEventPacketHeaderGetEventNumber p.packetHeader).toNat : Int)

instance (p : caer_spike_event_packet) : Decidable (PacketInv p) := by
  unfold PacketInv
  infer_instance

/-- Packet well-formedness of spec §3 beyond the counters: the events
array holds exactly `capacity` records, and records beyond
`eventCount` are untouched, hence invalid. -/
def PacketWF (p : caer_spike_event_packet) : Prop :=
  (p.events.length : Int) = caerEventPacketHeaderGetEventCapacity p.packetHeader ∧
  ∀ e ∈ p.events.drop (caerEventPacketHeaderGetEventNumber p.packetHeader).toNat,
    caerSpikeEventIsValid e = false

instance (p : caer_spike_event_packet) : Decidable (PacketWF p) := by
  unfold PacketWF
  infer_instance

/-- Full packet invariant: bookkeeping invariant plus well-formedness. -/
def PacketInvFull (p : caer_spike_event_packet) : Prop :=
  PacketInv p ∧ PacketWF p

instance (p : caer_spike_event_packet) : Decidable (PacketInvFull p) := by
  unfold PacketInvFull
  infer_instance

/-- Discipline of spec §4.2/§9 on an operation sequence: each
`Validate` targets the slot at index `eventCount`, the write cursor (a
never-yet-validated slot); `Invalidate` may target any slot. -/
def cursorOk : caer_spike_event_packet → List SpikeOp → Bool
  | _, [] => true
  | p, .validate i :: ops =>
    (i = (caerEventPacketHeaderGetEventNumber p.packetHeader).toNat : Bool) &&
      cursorOk (applySpikeOp p (.validate i)) ops
  | p, .invalidate i :: ops =>
    cursorOk (applySpikeOp p (.invalidate i)) ops

/-! Claim C4: timestamp setter round trip and rejection of negatives. -/

/-- Claim C4: for every record, `setTimestamp t` with `t ≥ 0` stores `t`
so that `getTimestamp` returns exactly `t`; with `t < 0` it reports the
invalid-argument condition and leaves the record completely unchanged. -/
theorem spec_C4 (e : caer_spike_event) (t : Int) :
    (0 ≤ t →
      caerSpikeEventSetTimestamp e t = ({ e with timestamp := t }, false) ∧
      caerSpikeEventGetTimestamp (caerSpikeEventSetTimestamp e t).1 = t) ∧
    (t < 0 → caerSpikeEventSetTimestamp e t = (e, true)) := by
  constructor
  · intro h
    rw [caerSpikeEventSetTimestamp, if_neg (by omega)]
    exact ⟨rfl, rfl⟩
  · intro h
    rw [caerSpikeEventSetTimestamp, if_pos h]

/-- Witness for C4 at a concrete record, with `t = 7` and `t = -1`. -/
theorem spec_C4_witness :
    (caerSpikeEventSetTimestamp { data := 3, timestamp := 0 } 7 =
        ({ data := 3, timestamp := 7 }, false) ∧
      caerSpikeEventGetTimestamp
        (caerSpikeEventSetTimestamp { data := 3, timestamp := 0 } 7).1 = 7) ∧
    caerSpikeEventSetTimestamp { data := 3, timestamp := 0 } (-1) =
      ({ data := 3, timestamp := 0 }, true) :=
  ⟨(spec_C4 { data := 3, timestamp := 0 } 7).1 (by decide),
   (spec_C4 { data := 3, timestamp := 0 } (-1)).2 (by decide)⟩

/-! Claim C5: double validate / double invalidate are reported no-ops. -/

/-- Claim C5: `Validate` on an already-valid record leaves the packet
(record and both counters) unchanged and reports a critical condition;
`Invalidate` on an already-invalid record likewise. -/
theorem spec_C5 (p : caer_spike_event_packet) (i : Nat) (ev : caer_spike_event)
    (hev : p.events[i]? = some ev) :
    (caerSpikeEventIsValid ev = true → caerSpikeEventValidate p i = (p, true)) ∧
    (caerSpikeEventIsValid ev = false → caerSpikeEventInvalidate p i = (p, true)) := by
  constructor
  · intro h
    simp [caerSpikeEventValidate, hev, h]
  · intro h
    simp [caerSpikeEventInvalidate, hev, h]

/-- Witness for C5 on a two-record packet whose record 0 is valid and
whose record 1 is invalid. -/
theorem spec_C5_witness :
    (caerSpikeEventIsValid { data := 1, timestamp := 0 } = true →
      caerSpikeEventValidate
        { packetHeader :=
            { eventType := 11, eventSource := 0, eventCapacity := 2, eventNumber := 1,
              eventValid := 1, eventTSOverflow := 0 }
          events := [{ data := 1, timestamp := 0 }, { data := 0, timestamp := 0 }] } 0 =
        ({ packetHeader :=
            { eventType := 11, eventSource := 0, eventCapacity := 2, eventNumber := 1,
              eventValid := 1, eventTSOverflow := 0 }
           events := [{ data := 1, timestamp := 0 }, { data := 0, timestamp := 0 }] },
          true)) ∧
    (caerSpikeEventIsValid { data := 1, timestamp := 0 } = false →
      caerSpikeEventInvalidate
        { packetHeader :=
            { eventType := 11, eventSource := 0, eventCapacity := 2, eventNumber := 1,
              eventValid := 1, eventTSOverflow := 0 }
          events := [{ data := 1, timestamp := 0 }, { data := 0, timestamp := 0 }] } 0 =
        ({ packetHeader :=
            { eventType := 11, eventSource := 0, eventCapacity := 2, eventNumber := 1,
              eventValid := 1, eventTSOverflow := 0 }
           events := [{ data := 1, timestamp := 0 }, { data := 0, timestamp := 0 }] },
          true)) :=
  spec_C5 _ 0 { data := 1, timestamp := 0 } (by decide)

/-! Claim C6: indexed access is bounds-checked. -/

/-- Claim C6: `getEvent packet n` returns the record at index `n`
exactly when `0 ≤ n < capacity`; otherwise it reports an out-of-bounds
critical condition and returns `none`, in particular at `n = capacity`
and `n = -1`. -/
theorem spec_C6 (p : caer_spike_event_packet) (n : Int)
    (hlen : (p.events.length : Int) =
      caerEventPacketHeaderGetEventCapacity p.packetHeader) :
    (0 ≤ n → n < caerEventPacketHeaderGetEventCapacity p.packetHeader →
      ∃ e, p.events[n.toNat]? = some e ∧
        caerSpikeEventPacketGetEvent p n = (some e, false)) ∧
    ((n < 0 ∨ caerEventPacketHeaderGetEventCapacity p.packetHeader ≤ n) →
      caerSpikeEventPacketGetEvent p n = (none, true)) := by
  constructor
  · intro h0 hc
    have hn : n.toNat < p.events.length := by omega
    refine ⟨p.events[n.toNat], List.getElem?_eq_getElem hn, ?_⟩
    rw [caerSpikeEventPacketGetEvent, if_neg (by omega),
      List.getElem?_eq_getElem hn]
  · intro h
    rw [caerSpikeEventPacketGetEvent, if_pos h]

/-- Witness for C6 on a concrete packet of capacity 2: index 1 is
returned, index 2 (the capacity) and index -1 are rejected. -/
theorem spec_C6_witness :
    (∃ e,
      [({ data := 4, timestamp := 0 } : caer_spike_event),
        { data := 5, timestamp := 0 }][(1 : Int).toNat]? = some e ∧
      caerSpikeEventPacketGetEvent
        { packetHeader :=
            { eventType := 11, eventSource := 0, eventCapacity := 2, eventNumber := 0,
              eventValid := 0, eventTSOverflow := 0 }
          events := [{ data := 4, timestamp := 0 }, { data := 5, timestamp := 0 }] } 1 =
        (some e, false)) ∧
    caerSpikeEventPacketGetEvent
      { packetHeader :=
          { eventType := 11, eventSource := 0, eventCapacity := 2, eventNumber := 0,
            eventValid := 0, eventTSOverflow := 0 }
        events := [{ data := 4, timestamp := 0 }, { data := 5, timestamp := 0 }] } 2 =
      (none, true) ∧
    caerSpikeEventPacketGetEvent
      { packetHeader :=
          { eventType := 11, eventSource := 0, eventCapacity := 2, eventNumber := 0,
            eventValid := 0, eventTSOverflow := 0 }
        events := [{ data := 4, timestamp := 0 }, { data := 5, timestamp := 0 }] } (-1) =
      (none, true) :=
  ⟨(spec_C6
      { packetHeader :=
          { eventType := 11, eventSource := 0, eventCapacity := 2, eventNumber := 0,
            eventValid := 0, eventTSOverflow := 0 }
        events := [{ data := 4, timestamp := 0 }, { data := 5, timestamp := 0 }] }
      1 (by decide)).1 (by decide) (by decide),
   (spec_C6
      { packetHeader :=
          { eventType := 11, eventSource := 0, eventCapacity := 2, eventNumber := 0,
            eventValid := 0, eventTSOverflow := 0 }
        events := [{ data := 4, timestamp := 0 }, { data := 5, timestamp := 0 }] }
      2 (by decide)).2 (by decide),
   (spec_C6
      { packetHeader :=
          { eventType := 11, eventSource := 0, eventCapacity := 2, eventNumber := 0,
            eventValid := 0, eventTSOverflow := 0 }
        events := [{ data := 4, timestamp := 0 }, { data := 5, timestamp := 0 }] }
      (-1) (by decide)).2 (by decide)⟩

/-! Claim C7: 64-bit timestamp reconstruction. -/

/-- Claim C7: for a record with a non-negative 32-bit timestamp and a
packet overflow counter in the `int32` range, the 64-bit timestamp is
`(overflowCounter <<< TS_OVERFLOW_SHIFT) ||| timestamp32`, both
operands treated as unsigned before combining and the result read as a
64-bit signed value. -/
theorem spec_C7 (e : caer_spike_event) (p : caer_spike_event_packet)
    (hts0 : 0 ≤ caerSpikeEventGetTimestamp e)
    (hts : caerSpikeEventGetTimestamp e < 2 ^ 31)
    (hov0 : 0 ≤ caerEventPacketHeaderGetEventTSOverflow p.packetHeader)
    (hov : caerEventPacketHeaderGetEventTSOverflow p.packetHeader < 2 ^ 31) :
    caerSpikeEventGetTimestamp64 e p =
      ((((caerEventPacketHeaderGetEventTSOverflow p.packetHeader).toNat <<<
          TS_OVERFLOW_SHIFT) |||
        (caerSpikeEventGetTimestamp e).toNat : Nat) : Int) := by
  have hpow : (2 : Int) ^ 31 = 2147483648 := by norm_num
  rw [hpow] at hts hov
  have e1 : U64T (caerEventPacketHeaderGetEventTSOverflow p.packetHeader) =
      (caerEventPacketHeaderGetEventTSOverflow p.packetHeader).toNat := by
    unfold U64T
    rw [Int.emod_eq_of_lt hov0 (by omega)]
  have e2 : U64T (caerSpikeEventGetTimestamp e) =
      (caerSpikeEventGetTimestamp e).toNat := by
    unfold U64T
    rw [Int.emod_eq_of_lt hts0 (by omega)]
  have hovN : (caerEventPacketHeaderGetEventTSOverflow p.packetHeader).toNat <
      2147483648 := by omega
  have htsN : (caerSpikeEventGetTimestamp e).toNat < 2147483648 := by omega
  have hshift : (caerEventPacketHeaderGetEventTSOverflow p.packetHeader).toNat <<<
      TS_OVERFLOW_SHIFT < 2 ^ 63 := by
    rw [Nat.shiftLeft_eq, show TS_OVERFLOW_SHIFT = 31 from rfl,
      show (2 : Nat) ^ 31 = 2147483648 from by norm_num,
      show (2 : Nat) ^ 63 = 9223372036854775808 from by norm_num]
    omega
  have hor : ((caerEventPacketHeaderGetEventTSOverflow p.packetHeader).toNat <<<
      TS_OVERFLOW_SHIFT) ||| (caerSpikeEventGetTimestamp e).toNat < 2 ^ 63 :=
    Nat.or_lt_two_pow hshift (by norm_num at htsN ⊢; omega)
  rw [caerSpikeEventGetTimestamp64, e1, e2,
    Nat.mod_eq_of_lt (lt_trans hshift (by norm_num)), I64T,
    Nat.mod_eq_of_lt (lt_trans hor (by norm_num)), if_pos hor]

/-- Witness for C7: overflow counter 1 and 32-bit timestamp 5 give
`(1 <<< 31) ||| 5`. -/
theorem spec_C7_witness :
    caerSpikeEventGetTimestamp64 { data := 0, timestamp := 5 }
      { packetHeader :=
          { eventType := 11, eventSource := 0, eventCapacity := 1, eventNumber := 0,
            eventValid := 0, eventTSOverflow := 1 }
        events := [{ data := 0, timestamp := 5 }] } =
      ((((1 : Int).toNat <<< TS_OVERFLOW_SHIFT) ||| (5 : Int).toNat : Nat) : Int) ∧
    ((((1 : Int).toNat <<< TS_OVERFLOW_SHIFT) ||| (5 : Int).toNat : Nat) : Int) =
      2147483653 :=
  ⟨spec_C7 { data := 0, timestamp := 5 }
      { packetHeader :=
          { eventType := 11, eventSource := 0, eventCapacity := 1, eventNumber := 0,
            eventValid := 0, eventTSOverflow := 1 }
        events := [{ data := 0, timestamp := 5 }] }
      (by decide) (by decide) (by decide) (by decide),
   by decide⟩

/-! Claim C10: the timestamp getter performs no validation. -/

/-- Claim C10: a record filled from foreign wire data whose stored
timestamp pattern has bit 31 set reads back through `getTimestamp` as a
negative 32-bit signed value with no error report, while the setter
path rejects that very value; non-negativity is enforced only on the
setter path. -/
theorem spec_C10 (d ts : Nat) (e : caer_spike_event) (hts : ts < 2 ^ 32)
    (hbit : ts.testBit 31 = true) :
    caerSpikeEventGetTimestamp (caerSpikeEventOfWire d ts) = (ts : Int) - 2 ^ 32 ∧
    caerSpikeEventGetTimestamp (caerSpikeEventOfWire d ts) < 0 ∧
    caerSpikeEventSetTimestamp e
      (caerSpikeEventGetTimestamp (caerSpikeEventOfWire d ts)) = (e, true) := by
  have hge : 2 ^ 31 ≤ ts := Nat.testBit_implies_ge hbit
  have hmod : ts % 2 ^ 32 = ts := Nat.mod_eq_of_lt hts
  have h1 : caerSpikeEventGetTimestamp (caerSpikeEventOfWire d ts) =
      (ts : Int) - 2 ^ 32 := by
    show I32T ts = _
    rw [I32T, hmod, if_neg (by push_cast; omega)]
  have h2 : caerSpikeEventGetTimestamp (caerSpikeEventOfWire d ts) < 0 := by
    rw [h1]
    push_cast
    omega
  exact ⟨h1, h2, by rw [caerSpikeEventSetTimestamp, if_pos h2]⟩

/-- Witness for C10 at the wire pattern `0x80000005` (bit 31 set),
against a concrete record for the setter part. -/
theorem spec_C10_witness :
    caerSpikeEventGetTimestamp (caerSpikeEventOfWire 0 0x80000005) =
      ((0x80000005 : Nat) : Int) - 2 ^ 32 ∧
    caerSpikeEventGetTimestamp (caerSpikeEventOfWire 0 0x80000005) < 0 ∧
    caerSpikeEventSetTimestamp { data := 0, timestamp := 0 }
      (caerSpikeEventGetTimestamp (caerSpikeEventOfWire 0 0x80000005)) =
      ({ data := 0, timestamp := 0 }, true) :=
  spec_C10 0 0x80000005 { data := 0, timestamp := 0 } (by decide) (by decide)

/-! Claim C1: the bookkeeping invariant under arbitrary operation
sequences.  The claim as stated fails: re-validating a slot that was
validated and then invalidated pushes `eventCount` past `capacity`,
exactly the misuse the header of `caerSpikeEventValidate` warns
against. -/

/-- Counterexample to C1 as stated: the freshly allocated packet of
capacity 1 satisfies the invariant, yet after the operation sequence
Validate 0, Invalidate 0, Validate 0 the invariant is violated
(`eventCount = 2 > capacity = 1`). -/
theorem spec_C1_counterexample :
    PacketInv (caerSpikeEventPacketAllocate 1 0 0) ∧
    ¬ PacketInv (runSpikeOps (caerSpikeEventPacketAllocate 1 0 0)
        [SpikeOp.validate 0, SpikeOp.invalidate 0, SpikeOp.validate 0]) ∧
    caerEventPacketHeaderGetEventNumber
      (runSpikeOps (caerSpikeEventPacketAllocate 1 0 0)
        [SpikeOp.validate 0, SpikeOp.invalidate 0, SpikeOp.validate 0]).packetHeader =
      2 := by
  refine ⟨by decide, by decide, by decide⟩

/-! Bit-level lemmas about the `common.h` field macros: reading a field
back after clear-and-set returns the written value, and reads of a
disjoint bit range are unaffected. -/

theorem spike_getBits_roundTrip (d v s w m : Nat) (hm : m = 2 ^ w - 1)
    (hsw : s + w ≤ 32) (hv : v < 2 ^ w) :
    GET_NUMBITS32 (SET_NUMBITS32 (CLEAR_NUMBITS32 d s m) s m v) s m = v := by
  subst hm
  apply Nat.eq_of_testBit_eq
  intro i
  simp only [GET_NUMBITS32, SET_NUMBITS32, CLEAR_NUMBITS32, Nat.testBit_and,
    Nat.testBit_or, Nat.testBit_xor, Nat.testBit_shiftRight, Nat.testBit_shiftLeft,
    Nat.testBit_mod_two_pow, Nat.testBit_two_pow_sub_one, ge_iff_le,
    Nat.add_sub_cancel_left, Nat.le_add_right, decide_True, Bool.true_and,
    Bool.and_true]
  by_cases hiw : i < w
  · have h32 : s + i < 32 := by omega
    simp [hiw, h32]
  · have hv2 : v.testBit i = false :=
      Nat.testBit_lt_two_pow
        (lt_of_lt_of_le hv (Nat.pow_le_pow_right (by norm_num) (le_of_not_lt hiw)))
    simp [hiw, hv2]

theorem spike_getBits_setBits_disjoint (d v s w m s2 w2 m2 : Nat)
    (hm : m = 2 ^ w - 1) (hm2 : m2 = 2 ^ w2 - 1)
    (hdisj : s + w ≤ s2 ∨ s2 + w2 ≤ s) :
    GET_NUMBITS32 (SET_NUMBITS32 d s m v) s2 m2 = GET_NUMBITS32 d s2 m2 := by
  subst hm hm2
  apply Nat.eq_of_testBit_eq
  intro i
  simp only [GET_NUMBITS32, SET_NUMBITS32, Nat.testBit_and, Nat.testBit_or,
    Nat.testBit_shiftRight, Nat.testBit_shiftLeft, Nat.testBit_mod_two_pow,
    Nat.testBit_two_pow_sub_one, ge_iff_le]
  by_cases hiw : i < w2
  · by_cases hss : s ≤ s2 + i
    · have hnw : ¬ (s2 + i - s < w) := by omega
      simp [hss, hnw]
    · simp [hss]
  · simp [hiw]

theorem spike_getBits_clearBits_disjoint (d s w m s2 w2 m2 : Nat)
    (hm : m = 2 ^ w - 1) (hm2 : m2 = 2 ^ w2 - 1) (h2 : s2 + w2 ≤ 32)
    (hdisj : s + w ≤ s2 ∨ s2 + w2 ≤ s) :
    GET_NUMBITS32 (CLEAR_NUMBITS32 d s m) s2 m2 = GET_NUMBITS32 d s2 m2 := by
  subst hm hm2
  apply Nat.eq_of_testBit_eq
  intro i
  simp only [GET_NUMBITS32, CLEAR_NUMBITS32, Nat.testBit_and, Nat.testBit_xor,
    Nat.testBit_shiftRight, Nat.testBit_shiftLeft, Nat.testBit_mod_two_pow,
    Nat.testBit_two_pow_sub_one, ge_iff_le]
  by_cases hiw : i < w2
  · have h32 : s2 + i < 32 := by omega
    by_cases hss : s ≤ s2 + i
    · have hnw : ¬ (s2 + i - s < w) := by omega
      simp [hss, hnw, h32]
    · simp [hss, h32]
  · simp [hiw]

theorem spike_getBits_setClearBits_disjoint (d v s w m s2 w2 m2 : Nat)
    (hm : m = 2 ^ w - 1) (hm2 : m2 = 2 ^ w2 - 1) (h2 : s2 + w2 ≤ 32)
    (hdisj : s + w ≤ s2 ∨ s2 + w2 ≤ s) :
    GET_NUMBITS32 (SET_NUMBITS32 (CLEAR_NUMBITS32 d s m) s m v) s2 m2 =
      GET_NUMBITS32 d s2 m2 := by
  rw [spike_getBits_setBits_disjoint _ v s w m s2 w2 m2 hm hm2 hdisj,
    spike_getBits_clearBits_disjoint d s w m s2 w2 m2 hm hm2 h2 hdisj]

theorem spike_mark_set (d : Nat) :
    GET_NUMBITS32 (SET_NUMBITS32 d VALID_MARK_SHIFT VALID_MARK_MASK 1)
      VALID_MARK_SHIFT VALID_MARK_MASK = 1 := by
  simp only [VALID_MARK_SHIFT, VALID_MARK_MASK]
  apply Nat.eq_of_testBit_eq
  intro i
  simp only [GET_NUMBITS32, SET_NUMBITS32, Nat.testBit_and, Nat.testBit_or,
    Nat.testBit_shiftRight, Nat.testBit_shiftLeft, Nat.testBit_mod_two_pow,
    ge_iff_le]
  by_cases hi : i = 0
  · subst hi
    simp
  · have h1 : Nat.testBit 1 i = false :=
      Nat.testBit_lt_two_pow
        (by calc (1 : Nat) < 2 ^ 1 := by norm_num
              _ ≤ 2 ^ i := Nat.pow_le_pow_right (by norm_num)
                    (Nat.pos_of_ne_zero hi))
    simp [h1]

theorem spike_mark_clear (d : Nat) :
    GET_NUMBITS32 (CLEAR_NUMBITS32 d VALID_MARK_SHIFT VALID_MARK_MASK)
      VALID_MARK_SHIFT VALID_MARK_MASK = 0 := by
  simp only [VALID_MARK_SHIFT, VALID_MARK_MASK]
  apply Nat.eq_of_testBit_eq
  intro i
  simp only [GET_NUMBITS32, CLEAR_NUMBITS32, Nat.testBit_and, Nat.testBit_xor,
    Nat.testBit_shiftRight, Nat.testBit_shiftLeft, Nat.testBit_mod_two_pow,
    Nat.zero_testBit, ge_iff_le]
  by_cases hi : i = 0
  · subst hi
    simp
  · have h1 : Nat.testBit 1 i = false :=
      Nat.testBit_lt_two_pow
        (by calc (1 : Nat) < 2 ^ 1 := by norm_num
              _ ≤ 2 ^ i := Nat.pow_le_pow_right (by norm_num)
                    (Nat.pos_of_ne_zero hi))
    simp [h1]

/-- Claim C3: for in-range core, chip and neuron ids, each setter
followed by the matching getter returns exactly the value set, and each
setter leaves the other two sub-fields, the validity bit and the
timestamp of the record unchanged. -/
theorem spec_C3 (e : caer_spike_event) (core chip neuron : Nat)
    (hcore : core ≤ 31) (hchip : chip ≤ 63) (hneuron : neuron ≤ 2 ^ 20 - 1) :
    (caerSpikeEventGetSourceCoreID (caerSpikeEventSetSourceCoreID e core) = core ∧
      caerSpikeEventGetChipID (caerSpikeEventSetSourceCoreID e core) =
        caerSpikeEventGetChipID e ∧
      caerSpikeEventGetNeuronID (caerSpikeEventSetSourceCoreID e core) =
        caerSpikeEventGetNeuronID e ∧
      caerSpikeEventIsValid (caerSpikeEventSetSourceCoreID e core) =
        caerSpikeEventIsValid e ∧
      (caerSpikeEventSetSourceCoreID e core).timestamp = e.timestamp) ∧
    (caerSpikeEventGetChipID (caerSpikeEventSetChipID e chip) = chip ∧
      caerSpikeEventGetSourceCoreID (caerSpikeEventSetChipID e chip) =
        caerSpikeEventGetSourceCoreID e ∧
      caerSpikeEventGetNeuronID (caerSpikeEventSetChipID e chip) =
        caerSpikeEventGetNeuronID e ∧
      caerSpikeEventIsValid (caerSpikeEventSetChipID e chip) =
        caerSpikeEventIsValid e ∧
      (caerSpikeEventSetChipID e chip).timestamp = e.timestamp) ∧
    (caerSpikeEventGetNeuronID (caerSpikeEventSetNeuronID e neuron) = neuron ∧
      caerSpikeEventGetSourceCoreID (caerSpikeEventSetNeuronID e neuron) =
        caerSpikeEventGetSourceCoreID e ∧
      caerSpikeEventGetChipID (caerSpikeEventSetNeuronID e neuron) =
        caerSpikeEventGetChipID e ∧
      caerSpikeEventIsValid (caerSpikeEventSetNeuronID e neuron) =
        caerSpikeEventIsValid e ∧
      (caerSpikeEventSetNeuronID e neuron).timestamp = e.timestamp) := by
  simp only [caerSpikeEventGetSourceCoreID, caerSpikeEventSetSourceCoreID,
    caerSpikeEventGetChipID, caerSpikeEventSetChipID, caerSpikeEventGetNeuronID,
    caerSpikeEventSetNeuronID, caerSpikeEventIsValid, SPIKE_SOURCE_CORE_ID_SHIFT,
    SPIKE_SOURCE_CORE_ID_MASK, SPIKE_CHIP_ID_SHIFT, SPIKE_CHIP_ID_MASK,
    SPIKE_NEURON_ID_SHIFT, SPIKE_NEURON_ID_MASK, VALID_MARK_SHIFT, VALID_MARK_MASK]
  refine ⟨⟨?_, ?_, ?_, ?_, trivial⟩, ⟨?_, ?_, ?_, ?_, trivial⟩, ⟨?_, ?_, ?_, ?_, trivial⟩⟩
  · exact spike_getBits_roundTrip e.data core 1 5 31 (by norm_num) (by norm_num)
      (by norm_num; omega)
  · exact spike_getBits_setClearBits_disjoint e.data core 1 5 31 6 6 63
      (by norm_num) (by norm_num) (by norm_num) (Or.inl (by norm_num))
  · exact spike_getBits_setClearBits_disjoint e.data core 1 5 31 12 20 1048575
      (by norm_num) (by norm_num) (by norm_num) (Or.inl (by norm_num))
  · rw [spike_getBits_setClearBits_disjoint e.data core 1 5 31 0 1 1
      (by norm_num) (by norm_num) (by norm_num) (Or.inr (by norm_num))]
  · exact spike_getBits_roundTrip e.data chip 6 6 63 (by norm_num) (by norm_num)
      (by norm_num; omega)
  · exact spike_getBits_setClearBits_disjoint e.data chip 6 6 63 1 5 31
      (by norm_num) (by norm_num) (by norm_num) (Or.inr (by norm_num))
  · exact spike_getBits_setClearBits_disjoint e.data chip 6 6 63 12 20 1048575
      (by norm_num) (by norm_num) (by norm_num) (Or.inl (by norm_num))
  · rw [spike_getBits_setClearBits_disjoint e.data chip 6 6 63 0 1 1
      (by norm_num) (by norm_num) (by norm_num) (Or.inr (by norm_num))]
  · exact spike_getBits_roundTrip e.data neuron 12 20 1048575 (by norm_num)
      (by norm_num) (by norm_num; omega)
  · exact spike_getBits_setClearBits_disjoint e.data neuron 12 20 1048575 1 5 31
      (by norm_num) (by norm_num) (by norm_num) (Or.inr (by norm_num))
  · exact spike_getBits_setClearBits_disjoint e.data neuron 12 20 1048575 6 6 63
      (by norm_num) (by norm_num) (by norm_num) (Or.inr (by norm_num))
  · rw [spike_getBits_setClearBits_disjoint e.data neuron 12 20 1048575 0 1 1
      (by norm_num) (by norm_num) (by norm_num) (Or.inr (by norm_num))]

/-- Witness for C3 at a concrete record with all bits set in the field
word, with core 17, chip 42 and neuron 99999. -/
theorem spec_C3_witness :
    (caerSpikeEventGetSourceCoreID
        (caerSpikeEventSetSourceCoreID { data := 4294967295, timestamp := 9 } 17) =
        17 ∧
      caerSpikeEventGetChipID
        (caerSpikeEventSetSourceCoreID { data := 4294967295, timestamp := 9 } 17) =
        caerSpikeEventGetChipID { data := 4294967295, timestamp := 9 } ∧
      caerSpikeEventGetNeuronID
        (caerSpikeEventSetSourceCoreID { data := 4294967295, timestamp := 9 } 17) =
        caerSpikeEventGetNeuronID { data := 4294967295, timestamp := 9 } ∧
      caerSpikeEventIsValid
        (caerSpikeEventSetSourceCoreID { data := 4294967295, timestamp := 9 } 17) =
        caerSpikeEventIsValid { data := 4294967295, timestamp := 9 } ∧
      (caerSpikeEventSetSourceCoreID { data := 4294967295, timestamp := 9 } 17).timestamp =
        ({ data := 4294967295, timestamp := 9 } : caer_spike_event).timestamp) ∧
    (caerSpikeEventGetChipID
        (caerSpikeEventSetChipID { data := 4294967295, timestamp := 9 } 42) = 42 ∧
      caerSpikeEventGetSourceCoreID
        (caerSpikeEventSetChipID { data := 4294967295, timestamp := 9 } 42) =
        caerSpikeEventGetSourceCoreID { data := 4294967295, timestamp := 9 } ∧
      caerSpikeEventGetNeuronID
        (caerSpikeEventSetChipID { data := 4294967295, timestamp := 9 } 42) =
        caerSpikeEventGetNeuronID { data := 4294967295, timestamp := 9 } ∧
      caerSpikeEventIsValid
        (caerSpikeEventSetChipID { data := 4294967295, timestamp := 9 } 42) =
        caerSpikeEventIsValid { data := 4294967295, timestamp := 9 } ∧
      (caerSpikeEventSetChipID { data := 4294967295, timestamp := 9 } 42).timestamp =
        ({ data := 4294967295, timestamp := 9 } : caer_spike_event).timestamp) ∧
    (caerSpikeEventGetNeuronID
        (caerSpikeEventSetNeuronID { data := 4294967295, timestamp := 9 } 99999) =
        99999 ∧
      caerSpikeEventGetSourceCoreID
        (caerSpikeEventSetNeuronID { data := 4294967295, timestamp := 9 } 99999) =
        caerSpikeEventGetSourceCoreID { data := 4294967295, timestamp := 9 } ∧
      caerSpikeEventGetChipID
        (caerSpikeEventSetNeuronID { data := 4294967295, timestamp := 9 } 99999) =
        caerSpikeEventGetChipID { data := 4294967295, timestamp := 9 } ∧
      caerSpikeEventIsValid
        (caerSpikeEventSetNeuronID { data := 4294967295, timestamp := 9 } 99999) =
        caerSpikeEventIsValid { data := 4294967295, timestamp := 9 } ∧
      (caerSpikeEventSetNeuronID { data := 4294967295, timestamp := 9 } 99999).timestamp =
        ({ data := 4294967295, timestamp := 9 } : caer_spike_event).timestamp) :=
  spec_C3 { data := 4294967295, timestamp := 9 } 17 42 99999 (by decide) (by decide)
    (by decide)

theorem spec_C9 (p : caer_spike_event_packet) (i : Nat) (ev : caer_spike_event)
    (hev : p.events[i]? = some ev) :
    (∀ j, j ≠ i →
      (caerSpikeEventValidate p i).1.events[j]? = p.events[j]? ∧
      (caerSpikeEventInvalidate p i).1.events[j]? = p.events[j]?) ∧
    (∃ e1, (caerSpikeEventValidate p i).1.events[i]? = some e1 ∧
      caerSpikeEventGetSourceCoreID e1 = caerSpikeEventGetSourceCoreID ev ∧
      caerSpikeEventGetChipID e1 = caerSpikeEventGetChipID ev ∧
      caerSpikeEventGetNeuronID e1 = caerSpikeEventGetNeuronID ev ∧
      caerSpikeEventGetTimestamp e1 = caerSpikeEventGetTimestamp ev) ∧
    (∃ e2, (caerSpikeEventInvalidate p i).1.events[i]? = some e2 ∧
      caerSpikeEventGetSourceCoreID e2 = caerSpikeEventGetSourceCoreID ev ∧
      caerSpikeEventGetChipID e2 = caerSpikeEventGetChipID ev ∧
      caerSpikeEventGetNeuronID e2 = caerSpikeEventGetNeuronID ev ∧
      caerSpikeEventGetTimestamp e2 = caerSpikeEventGetTimestamp ev) ∧
    ((caerSpikeEventValidate p i).1.packetHeader.eventCapacity =
        p.packetHeader.eventCapacity ∧
      (caerSpikeEventValidate p i).1.packetHeader.eventTSOverflow =
        p.packetHeader.eventTSOverflow ∧
      (caerSpikeEventValidate p i).1.packetHeader.eventType =
        p.packetHeader.eventType ∧
      (caerSpikeEventValidate p i).1.packetHeader.eventSource =
        p.packetHeader.eventSource ∧
      (caerSpikeEventInvalidate p i).1.packetHeader.eventCapacity =
        p.packetHeader.eventCapacity ∧
      (caerSpikeEventInvalidate p i).1.packetHeader.eventTSOverflow =
        p.packetHeader.eventTSOverflow ∧
      (caerSpikeEventInvalidate p i).1.packetHeader.eventType =
        p.packetHeader.eventType ∧
      (caerSpikeEventInvalidate p i).1.packetHeader.eventSource =
        p.packetHeader.eventSource) := by
  have hlen : i < p.events.length := by
    rcases List.getElem?_eq_some_iff.mp hev with ⟨h, _⟩
    exact h
  by_cases hv : caerSpikeEventIsValid ev = true
  · have hV : (caerSpikeEventValidate p i).1 = p := by
      simp [caerSpikeEventValidate, hev, hv]
    have hI : (caerSpikeEventInvalidate p i).1 =
        { packetHeader := caerEventPacketHeaderSetEventValid p.packetHeader
            (caerEventPacketHeaderGetEventValid p.packetHeader - 1)
          events := p.events.set i
            { ev with
              data := CLEAR_NUMBITS32 ev.data VALID_MARK_SHIFT VALID_MARK_MASK } } := by
      simp [caerSpikeEventInvalidate, hev, hv]
    refine ⟨?_, ?_, ?_, ?_⟩
    · intro j hj
      rw [hV, hI]
      refine ⟨rfl, ?_⟩
      simp [List.getElem?_set, Ne.symm hj]
    · rw [hV]
      exact ⟨ev, hev, rfl, rfl, rfl, rfl⟩
    · rw [hI]
      refine ⟨{ ev with
          data := CLEAR_NUMBITS32 ev.data VALID_MARK_SHIFT VALID_MARK_MASK },
        ?_, ?_, ?_, ?_, rfl⟩
      · simp [List.getElem?_set, hlen]
      · simp only [caerSpikeEventGetSourceCoreID, SPIKE_SOURCE_CORE_ID_SHIFT,
          SPIKE_SOURCE_CORE_ID_MASK, VALID_MARK_SHIFT, VALID_MARK_MASK]
        exact spike_getBits_clearBits_disjoint ev.data 0 1 1 1 5 31 (by norm_num)
          (by norm_num) (by norm_num) (Or.inl (by norm_num))
      · simp only [caerSpikeEventGetChipID, SPIKE_CHIP_ID_SHIFT, SPIKE_CHIP_ID_MASK,
          VALID_MARK_SHIFT, VALID_MARK_MASK]
        exact spike_getBits_clearBits_disjoint ev.data 0 1 1 6 6 63 (by norm_num)
          (by norm_num) (by norm_num) (Or.inl (by norm_num))
      · simp only [caerSpikeEventGetNeuronID, SPIKE_NEURON_ID_SHIFT,
          SPIKE_NEURON_ID_MASK, VALID_MARK_SHIFT, VALID_MARK_MASK]
        exact spike_getBits_clearBits_disjoint ev.data 0 1 1 12 20 1048575
          (by norm_num) (by norm_num) (by norm_num) (Or.inl (by norm_num))
    · rw [hV, hI]
      exact ⟨rfl, rfl, rfl, rfl, rfl, rfl, rfl, rfl⟩
  · rw [Bool.not_eq_true] at hv
    have hV : (caerSpikeEventValidate p i).1 =
        { packetHeader :=
            caerEventPacketHeaderSetEventValid
              (caerEventPacketHeaderSetEventNumber p.packetHeader
                (caerEventPacketHeaderGetEventNumber p.packetHeader + 1))
              (caerEventPacketHeaderGetEventValid p.packetHeader + 1)
          events := p.events.set i
            { ev with
              data := SET_NUMBITS32 ev.data VALID_MARK_SHIFT VALID_MARK_MASK 1 } } := by
      simp [caerSpikeEventValidate, hev, hv]
    have hI : (caerSpikeEventInvalidate p i).1 = p := by
      simp [caerSpikeEventInvalidate, hev, hv]
    refine ⟨?_, ?_, ?_, ?_⟩
    · intro j hj
      rw [hV, hI]
      refine ⟨?_, rfl⟩
      simp [List.getElem?_set, Ne.symm hj]
    · rw [hV]
      refine ⟨{ ev with
          data := SET_NUMBITS32 ev.data VALID_MARK_SHIFT VALID_MARK_MASK 1 },
        ?_, ?_, ?_, ?_, rfl⟩
      · simp [List.getElem?_set, hlen]
      · simp only [caerSpikeEventGetSourceCoreID, SPIKE_SOURCE_CORE_ID_SHIFT,
          SPIKE_SOURCE_CORE_ID_MASK, VALID_MARK_SHIFT, VALID_MARK_MASK]
        exact spike_getBits_setBits_disjoint ev.data 1 0 1 1 1 5 31 (by norm_num)
          (by norm_num) (Or.inl (by norm_num))
      · simp only [caerSpikeEventGetChipID, SPIKE_CHIP_ID_SHIFT, SPIKE_CHIP_ID_MASK,
          VALID_MARK_SHIFT, VALID_MARK_MASK]
        exact spike_getBits_setBits_disjoint ev.data 1 0 1 1 6 6 63 (by norm_num)
          (by norm_num) (Or.inl (by norm_num))
      · simp only [caerSpikeEventGetNeuronID, SPIKE_NEURON_ID_SHIFT,
          SPIKE_NEURON_ID_MASK, VALID_MARK_SHIFT, VALID_MARK_MASK]
        exact spike_getBits_setBits_disjoint ev.data 1 0 1 1 12 20 1048575
          (by norm_num) (by norm_num) (Or.inl (by norm_num))
    · rw [hI]
      exact ⟨ev, hev, rfl, rfl, rfl, rfl⟩
    · rw [hV, hI]
      exact ⟨rfl, rfl, rfl, rfl, rfl, rfl, rfl, rfl⟩

/-- Witness for C9 at record 0 of a concrete two-record packet:
record 1 and the non-counter header fields are untouched. -/
theorem spec_C9_witness :
    ((caerSpikeEventValidate
        { packetHeader :=
            { eventType := 11, eventSource := 0, eventCapacity := 2, eventNumber := 0,
              eventValid := 0, eventTSOverflow := 3 }
          events := [{ data := 0, timestamp := 7 }, { data := 9, timestamp := 8 }] }
        0).1.events[1]? = some { data := 9, timestamp := 8 } ∧
      (caerSpikeEventInvalidate
        { packetHeader :=
            { eventType := 11, eventSource := 0, eventCapacity := 2, eventNumber := 0,
              eventValid := 0, eventTSOverflow := 3 }
          events := [{ data := 0, timestamp := 7 }, { data := 9, timestamp := 8 }] }
        0).1.events[1]? = some { data := 9, timestamp := 8 }) ∧
    ((caerSpikeEventValidate
        { packetHeader :=
            { eventType := 11, eventSource := 0, eventCapacity := 2, eventNumber := 0,
              eventValid := 0, eventTSOverflow := 3 }
          events := [{ data := 0, timestamp := 7 }, { data := 9, timestamp := 8 }] }
        0).1.packetHeader.eventCapacity = 2 ∧
      (caerSpikeEventValidate
        { packetHeader :=
            { eventType := 11, eventSource := 0, eventCapacity := 2, eventNumber := 0,
              eventValid := 0, eventTSOverflow := 3 }
          events := [{ data := 0, timestamp := 7 }, { data := 9, timestamp := 8 }] }
        0).1.packetHeader.eventTSOverflow = 3) :=
  ⟨(spec_C9
      { packetHeader :=
          { eventType := 11, eventSource := 0, eventCapacity := 2, eventNumber := 0,
            eventValid := 0, eventTSOverflow := 3 }
        events := [{ data := 0, timestamp := 7 }, { data := 9, timestamp := 8 }] }
      0 { data := 0, timestamp := 7 } (by decide)).1 1 (by decide),
   (spec_C9
      { packetHeader :=
          { eventType := 11, eventSource := 0, eventCapacity := 2, eventNumber := 0,
            eventValid := 0, eventTSOverflow := 3 }
        events := [{ data := 0, timestamp := 7 }, { data := 9, timestamp := 8 }] }
      0 { data := 0, timestamp := 7 } (by decide)).2.2.2.1,
   (spec_C9
      { packetHeader :=
          { eventType := 11, eventSource := 0, eventCapacity := 2, eventNumber := 0,
            eventValid := 0, eventTSOverflow := 3 }
        events := [{ data := 0, timestamp := 7 }, { data := 9, timestamp := 8 }] }
      0 { data := 0, timestamp := 7 } (by decide)).2.2.2.2.1⟩

theorem spec_C8 (p : caer_spike_event_packet)
    (hec : caerEventPacketHeaderGetEventNumber p.packetHeader ≤
      caerEventPacketHeaderGetEventCapacity p.packetHeader) :
    (∀ i : Nat, i ∈ CAER_SPIKE_ITERATOR_VALID_visited p ↔
      ((i : Int) < caerEventPacketHeaderGetEventNumber p.packetHeader ∧
        ∃ e, p.events[i]? = some e ∧ caerSpikeEventIsValid e = true)) ∧
    List.Pairwise (fun a b => a < b) (CAER_SPIKE_ITERATOR_VALID_visited p) ∧
    CAER_SPIKE_REVERSE_ITERATOR_VALID_visited p =
      (CAER_SPIKE_ITERATOR_VALID_visited p).reverse := by
  refine ⟨?_, ?_, ?_⟩
  · intro i
    unfold CAER_SPIKE_ITERATOR_VALID_visited
    rw [List.mem_filter, List.mem_range]
    constructor
    · rintro ⟨hir, hf⟩
      have hlt : (i : Int) < caerEventPacketHeaderGetEventNumber p.packetHeader := by
        omega
      refine ⟨hlt, ?_⟩
      rw [caerSpikeEventPacketGetEvent, if_neg (by omega)] at hf
      simp only [Int.toNat_natCast] at hf
      cases hee : p.events[i]? with
      | none => rw [hee] at hf; simp [Option.any] at hf
      | some e =>
        rw [hee] at hf
        simp only [Option.any] at hf
        exact ⟨e, rfl, hf⟩
    · rintro ⟨hlt, e, hee, hve⟩
      refine ⟨by omega, ?_⟩
      rw [caerSpikeEventPacketGetEvent, if_neg (by omega)]
      simp only [Int.toNat_natCast, hee, Option.any, hve]
  · exact (List.pairwise_lt_range _).filter _
  · unfold CAER_SPIKE_REVERSE_ITERATOR_VALID_visited CAER_SPIKE_ITERATOR_VALID_visited
    rw [List.filter_reverse]

/-- Witness for C8 on a packet with slots Valid, Invalid, Valid: the
forward traversal yields exactly 0 then 2, the reverse traversal 2 then
0, and the membership characterisation holds at index 2. -/
theorem spec_C8_witness :
    (2 ∈ CAER_SPIKE_ITERATOR_VALID_visited
        { packetHeader :=
            { eventType := 11, eventSource := 0, eventCapacity := 3, eventNumber := 3,
              eventValid := 2, eventTSOverflow := 0 }
          events := [{ data := 1, timestamp := 0 }, { data := 0, timestamp := 0 },
            { data := 1, timestamp := 0 }] } ↔
      (((2 : Nat) : Int) <
        caerEventPacketHeaderGetEventNumber
          ({ packetHeader :=
              { eventType := 11, eventSource := 0, eventCapacity := 3, eventNumber := 3,
                eventValid := 2, eventTSOverflow := 0 }
             events := [{ data := 1, timestamp := 0 }, { data := 0, timestamp := 0 },
              { data := 1, timestamp := 0 }] } :
            caer_spike_event_packet).packetHeader ∧
        ∃ e, [({ data := 1, timestamp := 0 } : caer_spike_event),
            { data := 0, timestamp := 0 }, { data := 1, timestamp := 0 }][(2 : Nat)]? =
            some e ∧ caerSpikeEventIsValid e = true)) ∧
    CAER_SPIKE_ITERATOR_VALID_visited
      { packetHeader :=
          { eventType := 11, eventSource := 0, eventCapacity := 3, eventNumber := 3,
            eventValid := 2, eventTSOverflow := 0 }
        events := [{ data := 1, timestamp := 0 }, { data := 0, timestamp := 0 },
          { data := 1, timestamp := 0 }] } = [0, 2] ∧
    CAER_SPIKE_REVERSE_ITERATOR_VALID_visited
      { packetHeader :=
          { eventType := 11, eventSource := 0, eventCapacity := 3, eventNumber := 3,
            eventValid := 2, eventTSOverflow := 0 }
        events := [{ data := 1, timestamp := 0 }, { data := 0, timestamp := 0 },
          { data := 1, timestamp := 0 }] } = [2, 0] :=
  ⟨(spec_C8
      { packetHeader :=
          { eventType := 11, eventSource := 0, eventCapacity := 3, eventNumber := 3,
            eventValid := 2, eventTSOverflow := 0 }
        events := [{ data := 1, timestamp := 0 }, { data := 0, timestamp := 0 },
          { data := 1, timestamp := 0 }] } (by decide)).1 2,
   by decide, by decide⟩

theorem spike_validate_invalid (p : caer_spike_event_packet) (i : Nat)
    (ev : caer_spike_event) (hev : p.events[i]? = some ev)
    (hvf : caerSpikeEventIsValid ev = false) :
    caerSpikeEventValidate p i =
      ({ packetHeader :=
          caerEventPacketHeaderSetEventValid
            (caerEventPacketHeaderSetEventNumber p.packetHeader
              (caerEventPacketHeaderGetEventNumber p.packetHeader + 1))
            (caerEventPacketHeaderGetEventValid p.packetHeader + 1)
         events := p.events.set i
           { ev with
             data := SET_NUMBITS32 ev.data VALID_MARK_SHIFT VALID_MARK_MASK 1 } },
        false) := by
  simp [caerSpikeEventValidate, hev, hvf]

theorem spike_invalidate_valid (p : caer_spike_event_packet) (i : Nat)
    (ev : caer_spike_event) (hev : p.events[i]? = some ev)
    (hvt : caerSpikeEventIsValid ev = true) :
    caerSpikeEventInvalidate p i =
      ({ packetHeader :=
          caerEventPacketHeaderSetEventValid p.packetHeader
            (caerEventPacketHeaderGetEventValid p.packetHeader - 1)
         events := p.events.set i
           { ev with
             data := CLEAR_NUMBITS32 ev.data VALID_MARK_SHIFT VALID_MARK_MASK } },
        false) := by
  simp [caerSpikeEventInvalidate, hev, hvt]

theorem spike_validated_isValid (ev : caer_spike_event) :
    caerSpikeEventIsValid
      { ev with data := SET_NUMBITS32 ev.data VALID_MARK_SHIFT VALID_MARK_MASK 1 } =
      true := by
  simp [caerSpikeEventIsValid, spike_mark_set]

theorem spike_invalidated_isValid (ev : caer_spike_event) :
    caerSpikeEventIsValid
      { ev with data := CLEAR_NUMBITS32 ev.data VALID_MARK_SHIFT VALID_MARK_MASK } =
      false := by
  simp [caerSpikeEventIsValid, spike_mark_clear]

theorem spike_runValidates (vs : List Nat) (p : caer_spike_event_packet)
    (hnd : vs.Nodup)
    (hin : ∀ i ∈ vs, ∃ e, p.events[i]? = some e ∧ caerSpikeEventIsValid e = false) :
    caerEventPacketHeaderGetEventNumber
        (runSpikeOps p (vs.map SpikeOp.validate)).packetHeader =
      caerEventPacketHeaderGetEventNumber p.packetHeader + vs.length ∧
    caerEventPacketHeaderGetEventValid
        (runSpikeOps p (vs.map SpikeOp.validate)).packetHeader =
      caerEventPacketHeaderGetEventValid p.packetHeader + vs.length ∧
    (∀ j, j ∉ vs →
      (runSpikeOps p (vs.map SpikeOp.validate)).events[j]? = p.events[j]?) ∧
    (∀ j ∈ vs, ∃ e,
      (runSpikeOps p (vs.map SpikeOp.validate)).events[j]? = some e ∧
      caerSpikeEventIsValid e = true) := by
  induction vs generalizing p with
  | nil => simp [runSpikeOps]
  | cons a t ih =>
    rcases hin a (List.mem_cons_self a t) with ⟨ev, hev, hvf⟩
    rcases List.nodup_cons.mp hnd with ⟨hat, hndt⟩
    have ha : a < p.events.length := by
      rcases List.getElem?_eq_some_iff.mp hev with ⟨h, _⟩
      exact h
    have hrun : runSpikeOps p ((a :: t).map SpikeOp.validate) =
        runSpikeOps (caerSpikeEventValidate p a).1 (t.map SpikeOp.validate) := by
      simp [runSpikeOps, applySpikeOp]
    rw [spike_validate_invalid p a ev hev hvf] at hrun
    have hin2 : ∀ i ∈ t, ∃ e,
        ({ packetHeader :=
            caerEventPacketHeaderSetEventValid
              (caerEventPacketHeaderSetEventNumber p.packetHeader
                (caerEventPacketHeaderGetEventNumber p.packetHeader + 1))
              (caerEventPacketHeaderGetEventValid p.packetHeader + 1)
           events := p.events.set a
             { ev with
               data := SET_NUMBITS32 ev.data VALID_MARK_SHIFT VALID_MARK_MASK 1 } } :
          caer_spike_event_packet).events[i]? = some e ∧
        caerSpikeEventIsValid e = false := by
      intro i hit
      rcases hin i (List.mem_cons_of_mem a hit) with ⟨e, he, hf⟩
      refine ⟨e, ?_, hf⟩
      have hia : ¬ (a = i) := fun h => hat (h ▸ hit)
      simp [List.getElem?_set, hia, he]
    have ihp := ih _ hndt hin2
    rw [hrun]
    refine ⟨?_, ?_, ?_, ?_⟩
    · rw [ihp.1]
      simp [caerEventPacketHeaderGetEventNumber, caerEventPacketHeaderSetEventNumber,
        caerEventPacketHeaderSetEventValid]
      ring
    · rw [ihp.2.1]
      simp [caerEventPacketHeaderGetEventValid, caerEventPacketHeaderSetEventNumber,
        caerEventPacketHeaderSetEventValid]
      ring
    · intro j hj
      rw [ihp.2.2.1 j (fun h => hj (List.mem_cons_of_mem a h))]
      have hja : ¬ (a = j) := fun h => hj (h ▸ List.mem_cons_self a t)
      simp [List.getElem?_set, hja]
    · intro j hj
      rcases List.mem_cons.mp hj with hj1 | hj2
      · subst hj1
        refine ⟨{ ev with
            data := SET_NUMBITS32 ev.data VALID_MARK_SHIFT VALID_MARK_MASK 1 },
          ?_, spike_validated_isValid ev⟩
        rw [ihp.2.2.1 j hat]
        simp [List.getElem?_set, ha]
      · exact ihp.2.2.2 j hj2

theorem spike_runInvalidates (ws : List Nat) (p : caer_spike_event_packet)
    (hnd : ws.Nodup)
    (hin : ∀ i ∈ ws, ∃ e, p.events[i]? = some e ∧ caerSpikeEventIsValid e = true) :
    caerEventPacketHeaderGetEventNumber
        (runSpikeOps p (ws.map SpikeOp.invalidate)).packetHeader =
      caerEventPacketHeaderGetEventNumber p.packetHeader ∧
    caerEventPacketHeaderGetEventValid
        (runSpikeOps p (ws.map SpikeOp.invalidate)).packetHeader =
      caerEventPacketHeaderGetEventValid p.packetHeader - ws.length ∧
    (∀ j, j ∉ ws →
      (runSpikeOps p (ws.map SpikeOp.invalidate)).events[j]? = p.events[j]?) ∧
    (∀ j ∈ ws, ∃ e,
      (runSpikeOps p (ws.map SpikeOp.invalidate)).events[j]? = some e ∧
      caerSpikeEventIsValid e = false) := by
  induction ws generalizing p with
  | nil => simp [runSpikeOps]
  | cons a t ih =>
    rcases hin a (List.mem_cons_self a t) with ⟨ev, hev, hvt⟩
    rcases List.nodup_cons.mp hnd with ⟨hat, hndt⟩
    have ha : a < p.events.length := by
      rcases List.getElem?_eq_some_iff.mp hev with ⟨h, _⟩
      exact h
    have hrun : runSpikeOps p ((a :: t).map SpikeOp.invalidate) =
        runSpikeOps (caerSpikeEventInvalidate p a).1 (t.map SpikeOp.invalidate) := by
      simp [runSpikeOps, applySpikeOp]
    rw [spike_invalidate_valid p a ev hev hvt] at hrun
    have hin2 : ∀ i ∈ t, ∃ e,
        ({ packetHeader :=
            caerEventPacketHeaderSetEventValid p.packetHeader
              (caerEventPacketHeaderGetEventValid p.packetHeader - 1)
           events := p.events.set a
             { ev with
               data := CLEAR_NUMBITS32 ev.data VALID_MARK_SHIFT VALID_MARK_MASK } } :
          caer_spike_event_packet).events[i]? = some e ∧
        caerSpikeEventIsValid e = true := by
      intro i hit
      rcases hin i (List.mem_cons_of_mem a hit) with ⟨e, he, hf⟩
      refine ⟨e, ?_, hf⟩
      have hia : ¬ (a = i) := fun h => hat (h ▸ hit)
      simp [List.getElem?_set, hia, he]
    have ihp := ih _ hndt hin2
    rw [hrun]
    refine ⟨?_, ?_, ?_, ?_⟩
    · rw [ihp.1]
      rfl
    · rw [ihp.2.1]
      simp [caerEventPacketHeaderGetEventValid, caerEventPacketHeaderSetEventValid]
      ring
    · intro j hj
      rw [ihp.2.2.1 j (fun h => hj (List.mem_cons_of_mem a h))]
      have hja : ¬ (a = j) := fun h => hj (h ▸ List.mem_cons_self a t)
      simp [List.getElem?_set, hja]
    · intro j hj
      rcases List.mem_cons.mp hj with hj1 | hj2
      · subst hj1
        refine ⟨{ ev with
            data := CLEAR_NUMBITS32 ev.data VALID_MARK_SHIFT VALID_MARK_MASK },
          ?_, spike_invalidated_isValid ev⟩
        rw [ihp.2.2.1 j hat]
        simp [List.getElem?_set, ha]
      · exact ihp.2.2.2 j hj2

/-- Claim C2: starting from an all-invalid packet of capacity `N`,
after Validate on the distinct in-range slots `vs` (`k = vs.length`),
`eventCount = validCount = k`; after additionally Invalidate on a
subset `ws` of those slots (`j = ws.length`), `eventCount = k` and
`validCount = k - j`. -/
theorem spec_C2 (N : Int) (vs ws : List Nat)
    (hvs_nd : vs.Nodup) (hvs_lt : ∀ i ∈ vs, (i : Int) < N)
    (hws_nd : ws.Nodup) (hsub : ∀ i ∈ ws, i ∈ vs) :
    (caerEventPacketHeaderGetEventNumber
        (runSpikeOps (caerSpikeEventPacketAllocate N 0 0)
          (vs.map SpikeOp.validate)).packetHeader = vs.length ∧
      caerEventPacketHeaderGetEventValid
        (runSpikeOps (caerSpikeEventPacketAllocate N 0 0)
          (vs.map SpikeOp.validate)).packetHeader = vs.length) ∧
    (caerEventPacketHeaderGetEventNumber
        (runSpikeOps
          (runSpikeOps (caerSpikeEventPacketAllocate N 0 0)
            (vs.map SpikeOp.validate))
          (ws.map SpikeOp.invalidate)).packetHeader = vs.length ∧
      caerEventPacketHeaderGetEventValid
        (runSpikeOps
          (runSpikeOps (caerSpikeEventPacketAllocate N 0 0)
            (vs.map SpikeOp.validate))
          (ws.map SpikeOp.invalidate)).packetHeader =
        (vs.length : Int) - ws.length) := by
  have hin0 : ∀ i ∈ vs, ∃ e,
      (caerSpikeEventPacketAllocate N 0 0).events[i]? = some e ∧
      caerSpikeEventIsValid e = false := by
    intro i hi
    refine ⟨{ data := 0, timestamp := 0 }, ?_, by decide⟩
    have hiN : i < N.toNat := by
      have := hvs_lt i hi
      omega
    simp [caerSpikeEventPacketAllocate, List.getElem?_replicate, hiN]
  have h1 := spike_runValidates vs (caerSpikeEventPacketAllocate N 0 0) hvs_nd hin0
  have hen0 : caerEventPacketHeaderGetEventNumber
      (caerSpikeEventPacketAllocate N 0 0).packetHeader = 0 := rfl
  have hev0 : caerEventPacketHeaderGetEventValid
      (caerSpikeEventPacketAllocate N 0 0).packetHeader = 0 := rfl
  have hin1 : ∀ i ∈ ws, ∃ e,
      (runSpikeOps (caerSpikeEventPacketAllocate N 0 0)
        (vs.map SpikeOp.validate)).events[i]? = some e ∧
      caerSpikeEventIsValid e = true := fun i hi => h1.2.2.2 i (hsub i hi)
  have h2 := spike_runInvalidates ws
    (runSpikeOps (caerSpikeEventPacketAllocate N 0 0) (vs.map SpikeOp.validate))
    hws_nd hin1
  refine ⟨⟨?_, ?_⟩, ?_, ?_⟩
  · rw [h1.1, hen0, zero_add]
  · rw [h1.2.1, hev0, zero_add]
  · rw [h2.1, h1.1, hen0, zero_add]
  · rw [h2.2.1, h1.2.1, hev0, zero_add]

/-- Witness for C2 with capacity 3, Validate on slots 0 and 2, then
Invalidate on slot 2. -/
theorem spec_C2_witness :
    (caerEventPacketHeaderGetEventNumber
        (runSpikeOps (caerSpikeEventPacketAllocate 3 0 0)
          ([0, 2].map SpikeOp.validate)).packetHeader = 2 ∧
      caerEventPacketHeaderGetEventValid
        (runSpikeOps (caerSpikeEventPacketAllocate 3 0 0)
          ([0, 2].map SpikeOp.validate)).packetHeader = 2) ∧
    (caerEventPacketHeaderGetEventNumber
        (runSpikeOps
          (runSpikeOps (caerSpikeEventPacketAllocate 3 0 0)
            ([0, 2].map SpikeOp.validate))
          ([2].map SpikeOp.invalidate)).packetHeader = 2 ∧
      caerEventPacketHeaderGetEventValid
        (runSpikeOps
          (runSpikeOps (caerSpikeEventPacketAllocate 3 0 0)
            ([0, 2].map SpikeOp.validate))
          ([2].map SpikeOp.invalidate)).packetHeader = 1) :=
  spec_C2 3 [0, 2] [2] (by decide) (by decide) (by decide) (by decide)

theorem spike_validate_cursor_preserves (p : caer_spike_event_packet)
    (h : PacketInvFull p) :
    PacketInvFull
      (caerSpikeEventValidate p
        (caerEventPacketHeaderGetEventNumber p.packetHeader).toNat).1 := by
  obtain ⟨⟨h0, h1, h2, h3⟩, hlen, hdrop⟩ := h
  cases hev : p.events[(caerEventPacketHeaderGetEventNumber p.packetHeader).toNat]? with
  | none =>
    have hid : (caerSpikeEventValidate p
        (caerEventPacketHeaderGetEventNumber p.packetHeader).toNat).1 = p := by
      simp [caerSpikeEventValidate, hev]
    rw [hid]
    exact ⟨⟨h0, h1, h2, h3⟩, hlen, hdrop⟩
  | some ev =>
    have hlt : (caerEventPacketHeaderGetEventNumber p.packetHeader).toNat <
        p.events.length := (List.getElem?_eq_some_iff.mp hev).1
    have hmem : ev ∈ p.events.drop
        (caerEventPacketHeaderGetEventNumber p.packetHeader).toNat := by
      apply List.getElem?_mem (n := 0)
      rw [List.getElem?_drop]
      simpa using hev
    have hvf : caerSpikeEventIsValid ev = false := hdrop ev hmem
    rw [spike_validate_invalid p _ ev hev hvf]
    simp only [PacketInvFull, PacketInv, PacketWF, caerEventPacketHeaderGetEventValid,
      caerEventPacketHeaderSetEventValid, caerEventPacketHeaderSetEventNumber,
      caerEventPacketHeaderGetEventNumber, caerEventPacketHeaderGetEventCapacity]
      at h0 h1 h2 h3 hlen hdrop hev hlt ⊢
    obtain ⟨hlt2, hget⟩ := List.getElem?_eq_some_iff.mp hev
    have hecN : (p.packetHeader.eventNumber + 1).toNat =
        (p.packetHeader.eventNumber).toNat + 1 := by omega
    have hsum : validBitSum
        (p.events.set (p.packetHeader.eventNumber).toNat
          { data := SET_NUMBITS32 ev.data VALID_MARK_SHIFT VALID_MARK_MASK 1,
            timestamp := ev.timestamp })
        ((p.packetHeader.eventNumber).toNat + 1) =
        validBitSum p.events (p.packetHeader.eventNumber).toNat + 1 := by
      rw [validBitSum, List.set_take,
        List.countP_set _ _ _ _ (by simp [List.length_take]; omega)]
      rw [List.getElem_take, hget]
      rw [List.take_succ, hev]
      simp [hvf, validBitSum, spike_validated_isValid]
    refine ⟨⟨?_, ?_, ?_, ?_⟩, ?_, ?_⟩
    · omega
    · omega
    · omega
    · rw [hecN, hsum]
      push_cast
      omega
    · simp [List.length_set, hlen]
    · intro e he
      rw [hecN, List.drop_set, if_pos (by omega)] at he
      apply hdrop
      rw [List.drop_eq_getElem_cons hlt]
      exact List.mem_cons_of_mem _ he

theorem spike_invalidate_preserves (p : caer_spike_event_packet) (i : Nat)
    (h : PacketInvFull p) :
    PacketInvFull (caerSpikeEventInvalidate p i).1 := by
  obtain ⟨⟨h0, h1, h2, h3⟩, hlen, hdrop⟩ := h
  cases hev : p.events[i]? with
  | none =>
    have hid : (caerSpikeEventInvalidate p i).1 = p := by
      simp [caerSpikeEventInvalidate, hev]
    rw [hid]
    exact ⟨⟨h0, h1, h2, h3⟩, hlen, hdrop⟩
  | some ev =>
    by_cases hvt : caerSpikeEventIsValid ev = true
    · obtain ⟨hlt2, hget⟩ := List.getElem?_eq_some_iff.mp hev
      have hiec : i < (caerEventPacketHeaderGetEventNumber p.packetHeader).toNat := by
        by_contra hge
        push_neg at hge
        have hmem : ev ∈ p.events.drop
            (caerEventPacketHeaderGetEventNumber p.packetHeader).toNat := by
          apply List.getElem?_mem
            (n := i - (caerEventPacketHeaderGetEventNumber p.packetHeader).toNat)
          rw [List.getElem?_drop,
            show (caerEventPacketHeaderGetEventNumber p.packetHeader).toNat +
              (i - (caerEventPacketHeaderGetEventNumber p.packetHeader).toNat) = i
              from by omega]
          exact hev
        rw [hdrop ev hmem] at hvt
        exact Bool.false_ne_true hvt
      rw [spike_invalidate_valid p i ev hev hvt]
      simp only [PacketInvFull, PacketInv, PacketWF, caerEventPacketHeaderGetEventValid,
        caerEventPacketHeaderSetEventValid, caerEventPacketHeaderSetEventNumber,
        caerEventPacketHeaderGetEventNumber, caerEventPacketHeaderGetEventCapacity]
        at h0 h1 h2 h3 hlen hdrop hev hiec ⊢
      have hmemt : ev ∈ p.events.take (p.packetHeader.eventNumber).toNat := by
        apply List.getElem?_mem (n := i)
        rw [List.getElem?_take, if_pos hiec]
        exact hev
      have hpos : 0 < validBitSum p.events (p.packetHeader.eventNumber).toNat := by
        rw [validBitSum]
        exact List.countP_pos_iff.mpr ⟨ev, hmemt, hvt⟩
      have hsum : validBitSum
          (p.events.set i
            { data := CLEAR_NUMBITS32 ev.data VALID_MARK_SHIFT VALID_MARK_MASK,
              timestamp := ev.timestamp })
          (p.packetHeader.eventNumber).toNat =
          validBitSum p.events (p.packetHeader.eventNumber).toNat - 1 := by
        rw [validBitSum, List.set_take,
          List.countP_set _ _ _ _ (by simp [List.length_take]; omega)]
        rw [List.getElem_take, hget]
        simp [hvt, spike_invalidated_isValid, validBitSum]
      refine ⟨⟨?_, ?_, ?_, ?_⟩, ?_, ?_⟩
      · omega
      · omega
      · omega
      · rw [hsum]
        omega
      · simp [List.length_set, hlen]
      · intro e he
        rw [List.drop_set, if_pos hiec] at he
        exact hdrop e he
    · have hid : (caerSpikeEventInvalidate p i).1 = p := by
        simp [caerSpikeEventInvalidate, hev, hvt]
      rw [hid]
      exact ⟨⟨h0, h1, h2, h3⟩, hlen, hdrop⟩

theorem spike_cursor_trace (ops : List SpikeOp) (p : caer_spike_event_packet)
    (h : PacketInvFull p) (hc : cursorOk p ops = true) :
    ∀ q ∈ spikeTrace p ops, PacketInvFull q := by
  induction ops generalizing p with
  | nil =>
    intro q hq
    rw [spikeTrace, List.mem_singleton] at hq
    rw [hq]
    exact h
  | cons op t ih =>
    intro q hq
    rw [spikeTrace, List.mem_cons] at hq
    rcases hq with hq | hq
    · rw [hq]
      exact h
    · cases op with
      | validate i =>
        rw [cursorOk, Bool.and_eq_true] at hc
        obtain ⟨hi, hrest⟩ := hc
        have hi2 : i = (caerEventPacketHeaderGetEventNumber p.packetHeader).toNat :=
          of_decide_eq_true hi
        have hstep : PacketInvFull (applySpikeOp p (SpikeOp.validate i)) := by
          rw [applySpikeOp, hi2]
          exact spike_validate_cursor_preserves p h
        exact ih (applySpikeOp p (SpikeOp.validate i)) hstep hrest q hq
      | invalidate i =>
        rw [cursorOk] at hc
        have hstep : PacketInvFull (applySpikeOp p (SpikeOp.invalidate i)) :=
          spike_invalidate_preserves p i h
        exact ih (applySpikeOp p (SpikeOp.invalidate i)) hstep hc q hq

/-- Claim C1 as amended: for every packet state satisfying the
invariant together with the well-formedness of spec §3 (the events
array holds exactly `capacity` records and records beyond `eventCount`
are invalid), and every sequence of Validate and Invalidate operations
in which each Validate targets the slot at index `eventCount` (the
write cursor — the code's documented precondition that Validate is
never applied to a previously invalidated slot), the packet
bookkeeping invariant `0 ≤ validCount ≤ eventCount ≤ capacity`, with
`validCount` equal to the sum of the validity bits among the first
`eventCount` records, holds at all times. -/
theorem spec_C1_amended (p : caer_spike_event_packet) (ops : List SpikeOp)
    (h : PacketInvFull p) (hc : cursorOk p ops = true) :
    ∀ q ∈ spikeTrace p ops, PacketInv q := by
  intro q hq
  exact (spike_cursor_trace ops p h hc q hq).1

/-- Witness for the amended C1: capacity 2, Validate slots 0 and 1 at
the cursor, then Invalidate slot 0; the final state satisfies the
invariant. -/
theorem spec_C1_witness :
    PacketInv (runSpikeOps (caerSpikeEventPacketAllocate 2 0 0)
      [SpikeOp.validate 0, SpikeOp.validate 1, SpikeOp.invalidate 0]) :=
  spec_C1_amended (caerSpikeEventPacketAllocate 2 0 0)
    [SpikeOp.validate 0, SpikeOp.validate 1, SpikeOp.invalidate 0]
    (by decide) (by decide)
    (runSpikeOps (caerSpikeEventPacketAllocate 2 0 0)
      [SpikeOp.validate 0, SpikeOp.validate 1, SpikeOp.invalidate 0])
    (by decide)
